import Mathlib

/-!
Shallow embedding of the persistence models in `model/user.py` and
`model/users.py` of nighthawkcoders/kasmv2_flask, together with theorems
checking the natural-language specification's claims against the code.

Python machine state is made explicit: the current date (`date.today()`)
and the random password salt are passed as parameters; the SQLAlchemy
session is a pair of committed and pending records; attribute lookup on
model objects (which can raise `AttributeError`) is `Option`-valued.
-/

namespace Kasm

/-- `datetime.date`: a calendar date, as used by `date.today()`. -/
structure Date where
  year : Nat
  month : Nat
  day : Nat
deriving DecidableEq, Repr

/-- `UserSection.set_year_based_on_enrollment` (model/user.py lines 44-51):
computes the enrollment year stored in `self.year` from the current date.
The source tests `7 <= current_month <= 12`. -/
def set_year_based_on_enrollment (today : Date) : Nat :=
  if 7 ≤ today.month ∧ today.month ≤ 12 then today.year + 1 else today.year

/-- A row of the `sections` table (model/user.py class `Section`):
`id`, `_name`, `_abbreviation`. -/
structure Section where
  id : Nat
  name : String
  abbreviation : String
deriving DecidableEq, Repr

/-- `User.add_section(section)` (model/user.py lines 312-327), viewed as its
effect on the user's `sections` collection: if some section with the same
`id` is already present, the collection is unchanged (only a message is
printed); otherwise a `UserSection` association is added and committed,
appending the section. -/
def add_section (sections : List Section) (s : Section) : List Section :=
  if sections.any (fun t => t.id == s.id) then sections
  else sections ++ [s]

/-- `User.add_section(abbreviation)` (model/users.py lines 211-223), viewed as
its effect on the user's `sections`: the section is looked up by abbreviation
in the `sections` table; if found it is appended unconditionally (no duplicate
check), otherwise nothing changes. -/
def users_add_section (allSections : List Section) (userSections : List Section)
    (abbreviation : String) : List Section :=
  match allSections.find? (fun s => s.abbreviation == abbreviation) with
  | some s => userSections ++ [s]
  | none => userSections

/-! ### The SQLAlchemy session, as used by the CRUD methods

`db.session` holds records pending persistence (`add`) on top of the
committed database state.  `commit` either applies the pending records or
raises `IntegrityError`; whether it raises is decided by the database
(uniqueness constraints), so it enters the embedding as a boolean input.
`rollback` discards the pending records; `remove` discards the scoped
session altogether, which likewise discards its pending records. -/

/-- A SQLAlchemy session over records of type `α`: the committed table
contents plus the records added but not yet committed. -/
structure Session (α : Type) where
  committed : List α
  pending : List α
deriving DecidableEq, Repr

/-- `db.session.add(x)`: stage `x` for persistence. -/
def Session.add (s : Session α) (x : α) : Session α :=
  { s with pending := s.pending ++ [x] }

/-- `db.session.commit()` when the database accepts the transaction:
pending records become committed. -/
def Session.commitOk (s : Session α) : Session α :=
  { committed := s.committed ++ s.pending, pending := [] }

/-- `db.session.rollback()`: pending records are discarded, committed state
is untouched. -/
def Session.rollback (s : Session α) : Session α :=
  { s with pending := [] }

/-- `db.session.remove()`: the scoped session is discarded; its uncommitted
records are lost, committed state is untouched. -/
def Session.remove (s : Session α) : Session α :=
  { s with pending := [] }

/-- `create()` as written in `User` (model/user.py lines 244-251) and
`Section` (lines 85-92): `add` self, `commit`; on `IntegrityError` call
`db.session.rollback()` and return `None`, otherwise return `self`.
`integrityError` is the database's verdict on the commit. -/
def create_rollback (self : α) (s : Session α) (integrityError : Bool) :
    Option α × Session α :=
  let s1 := s.add self
  if integrityError then (none, s1.rollback) else (some self, s1.commitOk)

/-- `create()` as written in `Stocks` (model/user.py lines 418-425),
`StockUser`, `Transactions` and `User_Transaction_Stocks`: identical except
that the `IntegrityError` handler calls `db.session.remove()`. -/
def create_remove (self : α) (s : Session α) (integrityError : Bool) :
    Option α × Session α :=
  let s1 := s.add self
  if integrityError then (none, s1.remove) else (some self, s1.commitOk)

/-! ### Model objects and attribute access

`read()` builds a Python dict from `self`'s attributes; looking up an
attribute the object does not have raises `AttributeError`, so attribute
lookup is `Option`-valued and `read()` returns `Except`. -/

/-- A Python value appearing in a model field or a `read()` dictionary. -/
inductive PyVal where
  | none : PyVal
  | int : Int → PyVal
  | str : String → PyVal
  | bool : Bool → PyVal
  | date : Date → PyVal
deriving DecidableEq, Repr

/-- A row of the `stocks` table (model/user.py class `Stocks`): primary key
`id` (absent before the first flush) and columns `_symbol`, `_company`,
`_quantity`, `_sheesh`. -/
structure Stocks where
  id : Option Int
  _symbol : String
  _company : String
  _quantity : Int
  _sheesh : Int
deriving DecidableEq, Repr

/-- Attribute lookup on a `Stocks` object: its columns and its
`symbol`/`company`/`quantity`/`sheesh` properties.  There is no `stock_id`
attribute. -/
def Stocks.getattr (s : Stocks) : String → Option PyVal
  | "id" => some ((s.id.map PyVal.int).getD PyVal.none)
  | "_symbol" => some (.str s._symbol)
  | "symbol" => some (.str s._symbol)
  | "_company" => some (.str s._company)
  | "company" => some (.str s._company)
  | "_quantity" => some (.int s._quantity)
  | "quantity" => some (.int s._quantity)
  | "_sheesh" => some (.int s._sheesh)
  | "sheesh" => some (.int s._sheesh)
  | _ => Option.none

/-- Fetch attribute `a` of a `Stocks` object, raising `AttributeError` when
the object has no such attribute. -/
def Stocks.attr (s : Stocks) (a : String) : Except String PyVal :=
  match s.getattr a with
  | some v => .ok v
  | none => .error ("AttributeError: Stocks object has no attribute " ++ a)

/-- `Stocks.read` (model/user.py lines 449-456): builds
`{"id": self.stock_id, "symbol": self.symbol, ...}` — note the first entry
reads `self.stock_id`, not `self.id`. -/
def Stocks.read (s : Stocks) : Except String (List (String × PyVal)) := do
  let idv ← s.attr "stock_id"
  let sym ← s.attr "symbol"
  let com ← s.attr "company"
  let qty ← s.attr "quantity"
  let sh ← s.attr "sheesh"
  return [("id", idv), ("symbol", sym), ("company", com),
          ("quantity", qty), ("sheesh", sh)]

/-- A row of the `stock_transactions` table (model/user.py class
`Transactions`). -/
structure Transactions where
  id : Option Int
  _user_id : Int
  _transaction_type : String
  _quantity : Int
  _transaction_date : Date
deriving DecidableEq, Repr

/-- Attribute lookup on a `Transactions` object: its columns and its
`user_id`/`transaction_type`/`quantity` properties.  There is no
`transaction_id` attribute. -/
def Transactions.getattr (t : Transactions) : String → Option PyVal
  | "id" => some ((t.id.map PyVal.int).getD PyVal.none)
  | "_user_id" => some (.int t._user_id)
  | "user_id" => some (.int t._user_id)
  | "_transaction_type" => some (.str t._transaction_type)
  | "transaction_type" => some (.str t._transaction_type)
  | "_quantity" => some (.int t._quantity)
  | "quantity" => some (.int t._quantity)
  | "_transaction_date" => some (.date t._transaction_date)
  | _ => Option.none

/-- Fetch attribute `a` of a `Transactions` object. -/
def Transactions.attr (t : Transactions) (a : String) : Except String PyVal :=
  match t.getattr a with
  | some v => .ok v
  | none => .error ("AttributeError: Transactions object has no attribute " ++ a)

/-- `Transactions.read` (model/user.py lines 600-607): its first entry reads
`self.transaction_id`, not `self.id`. -/
def Transactions.read (t : Transactions) : Except String (List (String × PyVal)) := do
  let idv ← t.attr "transaction_id"
  let uid ← t.attr "user_id"
  let ty ← t.attr "transaction_type"
  let qty ← t.attr "quantity"
  let dt ← t.attr "_transaction_date"
  return [("id", idv), ("user_id", uid), ("transaction_type", ty),
          ("quantity", qty), ("transaction_date", dt)]

/-- A row of the `users` table as declared in model/users.py (class `User`
there): columns `id`, `_name`, `_uid`, `_password`, `_role`,
`kasm_server_needed`, `status`, plus the `sections` relationship. -/
structure UsersUser where
  id : Option Int
  _name : String
  _uid : String
  _password : String
  _role : String
  kasm_server_needed : Bool
  status : Bool
  sections : List Section
deriving DecidableEq, Repr

/-- Attribute lookup on a model/users.py `User` object.  The relationship
attribute is `sections`; there is no `classes` attribute.  (The `sections`
value is a collection, which `read` never reaches, so it is not given a
`PyVal` rendering here.) -/
def UsersUser.getattr (u : UsersUser) : String → Option PyVal
  | "id" => some ((u.id.map PyVal.int).getD PyVal.none)
  | "_name" => some (.str u._name)
  | "name" => some (.str u._name)
  | "_uid" => some (.str u._uid)
  | "uid" => some (.str u._uid)
  | "_password" => some (.str u._password)
  | "_role" => some (.str u._role)
  | "role" => some (.str u._role)
  | "kasm_server_needed" => some (.bool u.kasm_server_needed)
  | "status" => some (.bool u.status)
  | _ => Option.none

/-- Fetch attribute `a` of a model/users.py `User` object. -/
def UsersUser.attr (u : UsersUser) (a : String) : Except String PyVal :=
  match u.getattr a with
  | some v => .ok v
  | none => .error ("AttributeError: User object has no attribute " ++ a)

/-- `User.read` (model/users.py lines 176-185): its last entry evaluates
`self.classes.read() if self.classes else None`, reading the nonexistent
attribute `classes`. -/
def UsersUser.read (u : UsersUser) : Except String (List (String × PyVal)) := do
  let idv ← u.attr "id"
  let nm ← u.attr "name"
  let uid ← u.attr "uid"
  let rl ← u.attr "_role"
  let k ← u.attr "kasm_server_needed"
  let st ← u.attr "status"
  let _cls ← u.attr "classes"
  return [("id", idv), ("name", nm), ("uid", uid), ("role", rl),
          ("kasm_server_needed", k), ("status", st)]

/-! ### Password hashing

Modelled from the spec: `generate_password_hash` / `check_password_hash`
are werkzeug library functions, not code of this repository.  They are
modelled by their documented contract: `generate_password_hash(password,
"pbkdf2:sha256", salt_length=10)` produces `"method$salt$digest"` where the
salt is random (here an explicit parameter) and the digest is a hex string
determined by salt and password; `check_password_hash` splits the stored
string at `$` and recomputes the digest.  The digest function itself is an
arbitrary deterministic stand-in producing 64 hex characters. -/

/-- The `n`-th hex digit character (`0`-`9`, `a`-`f` for `n < 16`). -/
def hexDigit (n : Nat) : Char :=
  if n < 10 then Char.ofNat (48 + n) else Char.ofNat (87 + n)

/-- `w` hex characters encoding `v`, little-endian. -/
def natToHexChars : Nat → Nat → List Char
  | 0, _ => []
  | w + 1, v => hexDigit (v % 16) :: natToHexChars w (v / 16)

/-- Stand-in for the PBKDF2 integer digest of a character stream. -/
def strHash (l : List Char) : Nat :=
  l.foldl (fun a c => a * 131 + c.toNat + 17) 7

/-- Stand-in for the 64-hex-character PBKDF2-SHA256 digest of `password`
with `salt`. -/
def pbkdf2Digest (salt password : String) : List Char :=
  natToHexChars 64 (strHash (salt.data ++ password.data))

/-- `werkzeug.security.generate_password_hash(password, "pbkdf2:sha256",
salt_length=10)` with the random salt made explicit:
`"pbkdf2:sha256:600000$" + salt + "$" + digest`. -/
def generate_password_hash (salt password : String) : String :=
  "pbkdf2:sha256:600000$" ++ salt ++ "$" ++ String.mk (pbkdf2Digest salt password)

/-- Split a character stream at every `'$'` (werkzeug's parse of the stored
hash), with an accumulator for the current segment. -/
def splitD : List Char → List Char → List (List Char)
  | [], acc => [acc.reverse]
  | c :: rest, acc =>
    if c = '$' then acc.reverse :: splitD rest []
    else splitD rest (c :: acc)

/-- `werkzeug.security.check_password_hash(stored, password)`: parse
`stored` as `method$salt$digest` and recompute the digest of `password`. -/
def check_password_hash (stored password : String) : Bool :=
  match splitD stored.data [] with
  | [method, salt, hashval] =>
    method == "pbkdf2:sha256:600000".data &&
      pbkdf2Digest (String.mk salt) password == hashval
  | _ => false

/-! ### The `users` table of model/user.py -/

/-- A row of the `users` table as declared in model/user.py (class `User`):
columns `id`, `_name`, `_uid`, `_password`, `_role`, `_pfp` (nullable),
`kasm_server_needed`, plus the `sections` relationship. -/
structure User where
  id : Option Int
  _name : String
  _uid : String
  _password : String
  _role : String
  _pfp : Option String
  kasm_server_needed : Bool
  sections : List Section
deriving DecidableEq, Repr

/-- `User.__init__` (model/user.py lines 150-156), with the salt drawn by
`set_password` made explicit.  The new object is not yet flushed, so `id`
is absent and `sections` is empty. -/
def User.init (name uid password : String) (kasm_server_needed : Bool)
    (role : String) (pfp : String) (salt : String) : User :=
  { id := Option.none, _name := name, _uid := uid,
    _password := generate_password_hash salt password,
    _role := role, _pfp := some pfp,
    kasm_server_needed := kasm_server_needed, sections := [] }

/-- `User(name, uid)` with every defaulted argument left at its default:
`password="123qwerty"`, `kasm_server_needed=False`, `role="User"`,
`pfp=""`. -/
def User.initDefault (name uid salt : String) : User :=
  User.init name uid "123qwerty" false "User" "" salt

/-- `User.set_password` (model/user.py lines 206-208), salt explicit. -/
def User.set_password (u : User) (salt password : String) : User :=
  { u with _password := generate_password_hash salt password }

/-- `User.is_password` (model/user.py lines 211-214). -/
def User.is_password (u : User) (password : String) : Bool :=
  check_password_hash u._password password

/-- The `name` property getter (model/user.py lines 178-180). -/
def User.name (u : User) : String := u._name

/-- The `name` property setter (model/user.py lines 183-185). -/
def User.setName (u : User) (name : String) : User := { u with _name := name }

/-- The `uid` property getter (model/user.py lines 188-190). -/
def User.uid (u : User) : String := u._uid

/-- The `uid` property setter (model/user.py lines 193-195). -/
def User.setUid (u : User) (uid : String) : User := { u with _uid := uid }

/-- The `role` property getter (model/user.py lines 221-223). -/
def User.role (u : User) : String := u._role

/-- The `role` property setter (model/user.py lines 225-227). -/
def User.setRole (u : User) (role : String) : User := { u with _role := role }

/-- The `pfp` property getter (model/user.py lines 233-235). -/
def User.pfp (u : User) : Option String := u._pfp

/-- The `pfp` property setter (model/user.py lines 238-240). -/
def User.setPfp (u : User) (pfp : Option String) : User := { u with _pfp := pfp }

/-- `User.update` (model/user.py lines 268-281): conditional field updates,
then a commit.  `pfp=None` / `kasm_server_needed=None` (the defaults) are
`Option.none`; the salt consumed by `set_password` is explicit. -/
def User.update (u : User) (name uid password : String) (pfp : Option String)
    (kasm_server_needed : Option Bool) (salt : String) : User :=
  let u1 := if name.length > 0 then u.setName name else u
  let u2 := if uid.length > 0 then u1.setUid uid else u1
  let u3 := if password.length > 0 then u2.set_password salt password else u2
  let u4 := match pfp with
            | some v => u3.setPfp (some v)
            | none => u3
  match kasm_server_needed with
  | some b => { u4 with kasm_server_needed := b }
  | none => u4

/-- `User.remove_sections`'s loop (model/user.py lines 339-344) acting on
the in-session `sections` collection: for each abbreviation, find the first
matching section and remove it (`list.remove` drops the first equal
element); a missing abbreviation raises `ValueError`, modelled as `none`. -/
def remove_sections_loop : List String → List Section → Option (List Section)
  | [], sections => some sections
  | abbr :: rest, sections =>
    match sections.find? (fun s => s.abbreviation == abbr) with
    | some s => remove_sections_loop rest (sections.erase s)
    | none => Option.none

/-- `User.remove_sections` (model/user.py lines 337-354): run the loop on
the user's sections; on success commit (the mutated collection persists) and
return `True`; on `ValueError` roll the session back — the uncommitted
removals are discarded, so the collection reverts to its pre-call state —
and return `False`. -/
def remove_sections (sections : List Section) (abbrs : List String) :
    Bool × List Section :=
  match remove_sections_loop abbrs sections with
  | some s' => (true, s')
  | none => (false, sections)

/-! ### The stock-game tables -/

/-- A row of the `stockuser` table (model/user.py class `StockUser`). -/
structure StockUser where
  id : Option Int
  _user_id : String
  _stockmoney : Int
  _accountdate : Date
deriving DecidableEq, Repr

/-- `StockUser.__init__` (model/user.py lines 470-473): the `accountdate`
argument is bound but the body assigns `self._accountdate = date.today()`.
`today` is the ambient current date. -/
def StockUser.init (user_id : String) (stockmoney : Int) (_accountdate : Date)
    (today : Date) : StockUser :=
  { id := Option.none, _user_id := user_id, _stockmoney := stockmoney,
    _accountdate := today }

/-- `StockUser.update` (model/user.py lines 508-512): `stockmoney` is set
only when the argument is a positive `int`. -/
def StockUser.update (su : StockUser) (stockmoney : Option Int) : StockUser :=
  match stockmoney with
  | some n => if n > 0 then { su with _stockmoney := n } else su
  | none => su

/-- `Transactions.__init__` (model/user.py lines 548-552): the
`transaction_date` argument is bound but the body assigns
`self._transaction_date = date.today()`. -/
def Transactions.init (user_id : Int) (transaction_type : String)
    (quantity : Int) (_transaction_date : Date) (today : Date) : Transactions :=
  { id := Option.none, _user_id := user_id,
    _transaction_type := transaction_type, _quantity := quantity,
    _transaction_date := today }

/-- The `symbol` property getter (model/user.py lines 383-385). -/
def Stocks.symbol (s : Stocks) : String := s._symbol

/-- The `symbol` property setter (model/user.py lines 387-389). -/
def Stocks.setSymbol (s : Stocks) (symbol : String) : Stocks :=
  { s with _symbol := symbol }

/-- The `company` property getter (model/user.py lines 391-393). -/
def Stocks.company (s : Stocks) : String := s._company

/-- The `company` property setter (model/user.py lines 395-397). -/
def Stocks.setCompany (s : Stocks) (company : String) : Stocks :=
  { s with _company := company }

/-- The `quantity` property getter (model/user.py lines 399-401). -/
def Stocks.quantity (s : Stocks) : Int := s._quantity

/-- The `quantity` property setter (model/user.py lines 403-405). -/
def Stocks.setQuantity (s : Stocks) (quantity : Int) : Stocks :=
  { s with _quantity := quantity }

/-- The `sheesh` property getter (model/user.py lines 407-409). -/
def Stocks.sheesh (s : Stocks) : Int := s._sheesh

/-- The `sheesh` property setter (model/user.py lines 411-413). -/
def Stocks.setSheesh (s : Stocks) (sheesh : Int) : Stocks :=
  { s with _sheesh := sheesh }

/-- `Stocks.update` (model/user.py lines 427-435): `symbol` and `company`
are set only when non-empty; `quantity` only when the argument is not
`None`, is an `int` (guaranteed here by the `Option Int` type, matching the
`isinstance(quantity, int)` check) and is greater than 0. -/
def Stocks.update (s : Stocks) (symbol company : String)
    (quantity : Option Int) : Stocks :=
  let s1 := if symbol.length > 0 then s.setSymbol symbol else s
  let s2 := if company.length > 0 then s1.setCompany company else s1
  match quantity with
  | some n => if n > 0 then s2.setQuantity n else s2
  | none => s2

/-- The database state `add_stockuser` ranges over: the committed `users`
and `stockuser` tables. -/
structure StockDB where
  users : List User
  stockusers : List StockUser
deriving DecidableEq, Repr

/-- `User.add_stockuser(uid)` (model/user.py lines 357-366): look the user
up by `_uid`; if found and `user.stock_user` is `None` (no `stockuser` row
carries that `_uid`), add and commit
`StockUser(user_id=user.uid, stockmoney=100000, accountdate=date.today())`;
otherwise only print a message. -/
def add_stockuser (db : StockDB) (today : Date) (uid : String) : StockDB :=
  match db.users.find? (fun u => u._uid == uid) with
  | some user =>
    if db.stockusers.any (fun su => su._user_id == user._uid) then db
    else { db with
           stockusers := db.stockusers ++ [StockUser.init user._uid 100000 today today] }
  | none => db

/-! ## Theorems -/

/-- C1: the spec claims the stored year is `current_year + 1` exactly for
months August (8) through December (12).  The code's own comment says the
same, but the code tests `7 <= current_month`, so July already stores
`current_year + 1`: the code contradicts its documentation.  This theorem
evaluates the code at the failing input (any July date) and confirms
agreement on every other month. -/
theorem C1_set_year_july_divergence :
    set_year_based_on_enrollment ⟨2025, 7, 15⟩ = 2025 + 1 ∧
    (∀ m, 8 ≤ m → m ≤ 12 → set_year_based_on_enrollment ⟨2025, m, 15⟩ = 2025 + 1) ∧
    (∀ m, m < 7 → set_year_based_on_enrollment ⟨2025, m, 15⟩ = 2025) := by
  refine ⟨by decide, ?_, ?_⟩
  · intro m h1 h2
    simp only [set_year_based_on_enrollment]
    rw [if_pos ⟨by omega, h2⟩]
  · intro m h
    simp only [set_year_based_on_enrollment]
    rw [if_neg (by omega)]

/-- Closed instance of `C1_set_year_july_divergence`: August is inside the
claimed range and the code indeed stores next year there. -/
theorem C1_witness :
    8 ≤ 8 ∧ set_year_based_on_enrollment ⟨2025, 8, 15⟩ = 2025 + 1 :=
  ⟨by decide, C1_set_year_july_divergence.2.1 8 (by decide) (by decide)⟩

/-- C3: `create()` returns `self` and commits the pending records when the
commit succeeds; when the commit raises `IntegrityError` it returns `None`
and the committed (persisted) state is unchanged.  This holds both for the
`rollback` variant (`User`, `Section`) and for the `remove` variant
(`Stocks`, `StockUser`, `Transactions`, `User_Transaction_Stocks`), whose
handler discards the scoped session with the same effect on persisted
state. -/
theorem C3_create_returns_and_preserves :
    ∀ (α : Type) (self : α) (s : Session α),
      ((create_rollback self s false).1 = some self ∧
       (create_rollback self s false).2.committed = s.committed ++ s.pending ++ [self]) ∧
      ((create_rollback self s true).1 = Option.none ∧
       (create_rollback self s true).2.committed = s.committed) ∧
      ((create_remove self s false).1 = some self ∧
       (create_remove self s false).2.committed = s.committed ++ s.pending ++ [self]) ∧
      ((create_remove self s true).1 = Option.none ∧
       (create_remove self s true).2.committed = s.committed) := by
  intro α self s
  refine ⟨⟨rfl, ?_⟩, ⟨rfl, rfl⟩, ⟨rfl, ?_⟩, ⟨rfl, rfl⟩⟩ <;>
    simp [create_rollback, create_remove, Session.add, Session.commitOk]

/-- C4: the claim says every `read()` returns a dictionary of the object's
fields without error.  The three cited methods instead read attributes
their objects do not have (`Stocks.read` reads `self.stock_id`,
`Transactions.read` reads `self.transaction_id`, the model/users.py
`User.read` reads `self.classes`), so each raises `AttributeError` on every
object. -/
theorem C4_read_raises_attribute_error :
    ∀ (s : Stocks) (t : Transactions) (u : UsersUser),
      Stocks.read s
        = .error "AttributeError: Stocks object has no attribute stock_id" ∧
      Transactions.read t
        = .error "AttributeError: Transactions object has no attribute transaction_id" ∧
      UsersUser.read u
        = .error "AttributeError: User object has no attribute classes" :=
  fun _ _ _ => ⟨rfl, rfl, rfl⟩

/-- C7: for each getter/setter property pair (`User`'s `name`, `uid`,
`role`, `pfp`; `Stocks`' `symbol`, `company`, `quantity`, `sheesh`),
setting the property and reading it back returns the set value, and setting
one property leaves each of the class's other listed properties
unchanged. -/
theorem C7_setter_getter_roundtrip_and_frame :
    ∀ (u : User) (v : String) (p : Option String) (s : Stocks) (w : String) (n : Int),
      ((u.setName v).name = v ∧ (u.setName v).uid = u.uid ∧
        (u.setName v).role = u.role ∧ (u.setName v).pfp = u.pfp) ∧
      ((u.setUid v).uid = v ∧ (u.setUid v).name = u.name ∧
        (u.setUid v).role = u.role ∧ (u.setUid v).pfp = u.pfp) ∧
      ((u.setRole v).role = v ∧ (u.setRole v).name = u.name ∧
        (u.setRole v).uid = u.uid ∧ (u.setRole v).pfp = u.pfp) ∧
      ((u.setPfp p).pfp = p ∧ (u.setPfp p).name = u.name ∧
        (u.setPfp p).uid = u.uid ∧ (u.setPfp p).role = u.role) ∧
      ((s.setSymbol w).symbol = w ∧ (s.setSymbol w).company = s.company ∧
        (s.setSymbol w).quantity = s.quantity ∧ (s.setSymbol w).sheesh = s.sheesh) ∧
      ((s.setCompany w).company = w ∧ (s.setCompany w).symbol = s.symbol ∧
        (s.setCompany w).quantity = s.quantity ∧ (s.setCompany w).sheesh = s.sheesh) ∧
      ((s.setQuantity n).quantity = n ∧ (s.setQuantity n).symbol = s.symbol ∧
        (s.setQuantity n).company = s.company ∧ (s.setQuantity n).sheesh = s.sheesh) ∧
      ((s.setSheesh n).sheesh = n ∧ (s.setSheesh n).symbol = s.symbol ∧
        (s.setSheesh n).company = s.company ∧ (s.setSheesh n).quantity = s.quantity) :=
  fun _ _ _ _ _ _ =>
    ⟨⟨rfl, rfl, rfl, rfl⟩, ⟨rfl, rfl, rfl, rfl⟩, ⟨rfl, rfl, rfl, rfl⟩,
     ⟨rfl, rfl, rfl, rfl⟩, ⟨rfl, rfl, rfl, rfl⟩, ⟨rfl, rfl, rfl, rfl⟩,
     ⟨rfl, rfl, rfl, rfl⟩, ⟨rfl, rfl, rfl, rfl⟩⟩

/-- C10: `StockUser.__init__` and `Transactions.__init__` ignore their
`accountdate` / `transaction_date` arguments — the constructed object is the
same for any two values of those arguments, and the stored date is always
`date.today()` at construction time. -/
theorem C10_constructors_ignore_date_arguments :
    ∀ (user_id : String) (stockmoney : Int) (d1 d2 today : Date)
      (tuid : Int) (ttype : String) (q : Int),
      StockUser.init user_id stockmoney d1 today
        = StockUser.init user_id stockmoney d2 today ∧
      (StockUser.init user_id stockmoney d1 today)._accountdate = today ∧
      Transactions.init tuid ttype q d1 today
        = Transactions.init tuid ttype q d2 today ∧
      (Transactions.init tuid ttype q d1 today)._transaction_date = today :=
  fun _ _ _ _ _ _ _ _ => ⟨rfl, rfl, rfl, rfl⟩

/-- One `add_section` call (model/user.py variant) preserves distinctness of
the section ids. -/
theorem add_section_preserves_nodup (sections : List Section) (s : Section)
    (h : (sections.map Section.id).Nodup) :
    ((add_section sections s).map Section.id).Nodup := by
  unfold add_section
  split
  · exact h
  · rename_i hany
    have hmem : s.id ∉ sections.map Section.id := by
      intro hm
      rcases List.mem_map.mp hm with ⟨t, ht, hid⟩
      exact hany (List.any_eq_true.mpr ⟨t, ht, by simp [hid]⟩)
    rw [List.map_append, List.nodup_append]
    refine ⟨h, by simp, ?_⟩
    intro a ha hb
    have : a = s.id := by simpa using hb
    exact hmem (this ▸ ha)

/-- Any sequence of `add_section` calls (model/user.py variant) keeps the
section ids distinct. -/
theorem add_section_foldl_nodup (calls : List Section) (sections : List Section)
    (h : (sections.map Section.id).Nodup) :
    (((calls.foldl add_section sections)).map Section.id).Nodup := by
  induction calls generalizing sections with
  | nil => exact h
  | cons c rest ih => exact ih _ (add_section_preserves_nodup sections c h)

/-- C2 (as stated) is false for the model/users.py `add_section`: a user
whose sections already contain the `CSA` section (id 1) gets a second copy
appended when `add_section("CSA")` is called — the collection changes and
ends up with two sections of the same id. -/
theorem C2_users_add_section_counterexample :
    users_add_section [⟨1, "Computer Science A", "CSA"⟩]
        [⟨1, "Computer Science A", "CSA"⟩] "CSA"
      = [⟨1, "Computer Science A", "CSA"⟩, ⟨1, "Computer Science A", "CSA"⟩] ∧
    users_add_section [⟨1, "Computer Science A", "CSA"⟩]
        [⟨1, "Computer Science A", "CSA"⟩] "CSA"
      ≠ [⟨1, "Computer Science A", "CSA"⟩] ∧
    ¬ ((users_add_section [⟨1, "Computer Science A", "CSA"⟩]
        [⟨1, "Computer Science A", "CSA"⟩] "CSA").map Section.id).Nodup := by
  refine ⟨by decide, by decide, by decide⟩

/-- C2 amended: the model/user.py `User.add_section` is duplicate-guarded —
if a section with the same id is already present the collection is
unchanged, otherwise exactly that section is appended — and after any
sequence of such calls the section ids remain pairwise distinct; the
model/users.py variant appends the found section without any duplicate
check (see the counterexample). -/
theorem C2_add_section_duplicate_guarded (sections : List Section) (s : Section) :
    ((∃ t ∈ sections, t.id = s.id) → add_section sections s = sections) ∧
    ((∀ t ∈ sections, t.id ≠ s.id) → add_section sections s = sections ++ [s]) ∧
    ((sections.map Section.id).Nodup →
      ∀ calls : List Section,
        ((calls.foldl add_section sections).map Section.id).Nodup) := by
  refine ⟨?_, ?_, ?_⟩
  · rintro ⟨t, ht, hid⟩
    unfold add_section
    rw [if_pos (List.any_eq_true.mpr ⟨t, ht, by simp [hid]⟩)]
  · intro h
    unfold add_section
    rw [if_neg]
    intro hany
    rcases List.any_eq_true.mp hany with ⟨t, ht, hid⟩
    exact h t ht (by simpa using hid)
  · intro h calls
    exact add_section_foldl_nodup calls sections h

/-- Closed instance of `C2_add_section_duplicate_guarded`: starting from a
duplicate-free collection, a sequence of calls that repeats an id leaves the
ids distinct. -/
theorem C2_witness :
    ((([] : List Section).map Section.id).Nodup) ∧
    ((([⟨1, "Computer Science A", "CSA"⟩, ⟨1, "Computer Science A", "CSA"⟩,
        ⟨2, "Computer Science Principles", "CSP"⟩] : List Section).foldl
          add_section []).map Section.id).Nodup :=
  ⟨by decide,
   (C2_add_section_duplicate_guarded [] ⟨0, "", ""⟩).2.2 (by decide)
     [⟨1, "Computer Science A", "CSA"⟩, ⟨1, "Computer Science A", "CSA"⟩,
      ⟨2, "Computer Science Principles", "CSP"⟩]⟩

/-- C5: every `update()` performs only conditional field updates: a
string field changes exactly when the argument is non-empty, `pfp` /
`kasm_server_needed` exactly when the argument is not `None`,
`Stocks.quantity` / `StockUser.stockmoney` exactly when the argument is an
`int` greater than 0, and every guarded-out or untouched field keeps its
prior value (`update` returns `self`, so the result is this object). -/
theorem C5_update_conditional_guards (u : User) (name uid password : String)
    (pfp : Option String) (k : Option Bool) (salt : String)
    (s : Stocks) (symbol company : String) (q : Option Int)
    (su : StockUser) (m : Option Int) :
    ((name.length > 0 → (u.update name uid password pfp k salt)._name = name) ∧
     (¬ name.length > 0 → (u.update name uid password pfp k salt)._name = u._name) ∧
     (uid.length > 0 → (u.update name uid password pfp k salt)._uid = uid) ∧
     (¬ uid.length > 0 → (u.update name uid password pfp k salt)._uid = u._uid) ∧
     (password.length > 0 →
       (u.update name uid password pfp k salt)._password
         = generate_password_hash salt password) ∧
     (¬ password.length > 0 →
       (u.update name uid password pfp k salt)._password = u._password) ∧
     (∀ v, pfp = some v → (u.update name uid password pfp k salt)._pfp = some v) ∧
     (pfp = Option.none → (u.update name uid password pfp k salt)._pfp = u._pfp) ∧
     (∀ b, k = some b →
       (u.update name uid password pfp k salt).kasm_server_needed = b) ∧
     (k = Option.none →
       (u.update name uid password pfp k salt).kasm_server_needed
         = u.kasm_server_needed) ∧
     (u.update name uid password pfp k salt).id = u.id ∧
     (u.update name uid password pfp k salt)._role = u._role ∧
     (u.update name uid password pfp k salt).sections = u.sections) ∧
    ((symbol.length > 0 → (s.update symbol company q)._symbol = symbol) ∧
     (¬ symbol.length > 0 → (s.update symbol company q)._symbol = s._symbol) ∧
     (company.length > 0 → (s.update symbol company q)._company = company) ∧
     (¬ company.length > 0 → (s.update symbol company q)._company = s._company) ∧
     (∀ n, q = some n → n > 0 → (s.update symbol company q)._quantity = n) ∧
     (∀ n, q = some n → ¬ n > 0 →
       (s.update symbol company q)._quantity = s._quantity) ∧
     (q = Option.none → (s.update symbol company q)._quantity = s._quantity) ∧
     (s.update symbol company q).id = s.id ∧
     (s.update symbol company q)._sheesh = s._sheesh) ∧
    ((∀ n, m = some n → n > 0 → (su.update m)._stockmoney = n) ∧
     (∀ n, m = some n → ¬ n > 0 → (su.update m)._stockmoney = su._stockmoney) ∧
     (m = Option.none → (su.update m)._stockmoney = su._stockmoney) ∧
     (su.update m).id = su.id ∧
     (su.update m)._user_id = su._user_id ∧
     (su.update m)._accountdate = su._accountdate) := by
  refine ⟨?_, ?_, ?_⟩
  · rcases pfp with _ | v <;> rcases k with _ | b <;>
      by_cases h1 : name.length > 0 <;> by_cases h2 : uid.length > 0 <;>
      by_cases h3 : password.length > 0 <;>
      simp_all [User.update, User.setName, User.setUid, User.set_password,
                User.setPfp]
  · rcases q with _ | n
    · simp only [Stocks.update, Stocks.setSymbol, Stocks.setCompany,
                 Stocks.setQuantity]
      split_ifs <;> simp_all
    · simp only [Stocks.update, Stocks.setSymbol, Stocks.setCompany,
                 Stocks.setQuantity]
      split_ifs <;> simp_all
  · rcases m with _ | n
    · simp [StockUser.update]
    · simp only [StockUser.update]
      split_ifs <;> simp_all

/-- Closed instance of `C5_update_conditional_guards`: a non-empty `name`
argument is written through and an out-of-guard `quantity` is ignored. -/
theorem C5_witness :
    ("Jo".length > 0 →
      ((⟨Option.none, "T", "t", "x", "User", Option.none, false, []⟩ : User).update
        "Jo" "" "" Option.none Option.none "s")._name = "Jo") ∧
    (∀ n, (some (-3) : Option Int) = some n → ¬ n > 0 →
      ((⟨Option.none, "AAPL", "Apple", 5, 100⟩ : Stocks).update "" "" (some (-3)))._quantity
        = (⟨Option.none, "AAPL", "Apple", 5, 100⟩ : Stocks)._quantity) :=
  ⟨fun h =>
     (C5_update_conditional_guards ⟨Option.none, "T", "t", "x", "User", Option.none, false, []⟩
        "Jo" "" "" Option.none Option.none "s"
        ⟨Option.none, "AAPL", "Apple", 5, 100⟩ "" "" (some (-3))
        ⟨Option.none, "t", 7, ⟨2025, 10, 12⟩⟩ Option.none).1.1 h,
   fun n hn hpos =>
     (C5_update_conditional_guards ⟨Option.none, "T", "t", "x", "User", Option.none, false, []⟩
        "Jo" "" "" Option.none Option.none "s"
        ⟨Option.none, "AAPL", "Apple", 5, 100⟩ "" "" (some (-3))
        ⟨Option.none, "t", 7, ⟨2025, 10, 12⟩⟩ Option.none).2.1.2.2.2.2.2.1 n hn hpos⟩

/-- C8: `add_stockuser(uid)` appends a `StockUser` with `stockmoney =
100000` and today's account date exactly when some user has that `_uid` and
no `stockuser` row carries it; when the user is missing or the row already
exists, the database is unchanged. -/
theorem C8_add_stockuser_spec (db : StockDB) (today : Date) (uid : String) :
    ((∃ u ∈ db.users, u._uid = uid) →
      (¬ ∃ su ∈ db.stockusers, su._user_id = uid) →
      (add_stockuser db today uid).users = db.users ∧
      (add_stockuser db today uid).stockusers
        = db.stockusers ++ [⟨Option.none, uid, 100000, today⟩]) ∧
    ((¬ ∃ u ∈ db.users, u._uid = uid) → add_stockuser db today uid = db) ∧
    ((∃ su ∈ db.stockusers, su._user_id = uid) → add_stockuser db today uid = db) := by
  rcases hf : db.users.find? (fun u => u._uid == uid) with _ | user
  · have hred : add_stockuser db today uid = db := by
      unfold add_stockuser; rw [hf]
    refine ⟨?_, fun _ => hred, fun _ => hred⟩
    rintro ⟨u, hu, huid⟩ _
    rw [List.find?_eq_none] at hf
    exact absurd (by simpa using huid) (by simpa using hf u hu)
  · have huid : user._uid = uid := by simpa using List.find?_some hf
    have hred : add_stockuser db today uid
        = if db.stockusers.any (fun su => su._user_id == user._uid) then db
          else { db with
                 stockusers :=
                   db.stockusers ++ [StockUser.init user._uid 100000 today today] } := by
      unfold add_stockuser; rw [hf]
    refine ⟨?_, ?_, ?_⟩
    · intro _ hnot
      have hany : (db.stockusers.any fun su => su._user_id == user._uid) = false := by
        rw [List.any_eq_false]
        intro su hsu he
        exact hnot ⟨su, hsu, by simpa [huid] using he⟩
      rw [hred, if_neg (by simp [hany])]
      exact ⟨rfl, by simp [StockUser.init, huid]⟩
    · intro hnone
      exact absurd ⟨user, List.mem_of_find?_eq_some hf, huid⟩ hnone
    · rintro ⟨su, hsu, he⟩
      rw [hred, if_pos (List.any_eq_true.mpr ⟨su, hsu, by simp [he, huid]⟩)]

/-- Closed instance of `C8_add_stockuser_spec`: a fresh balance row with
100000 and today's date is created for an existing user without one. -/
theorem C8_witness :
    (add_stockuser
        ⟨[⟨Option.none, "T", "toby", "x", "User", Option.none, false, []⟩], []⟩
        ⟨2025, 10, 12⟩ "toby").stockusers
      = [⟨Option.none, "toby", 100000, ⟨2025, 10, 12⟩⟩] :=
  ((C8_add_stockuser_spec
      ⟨[⟨Option.none, "T", "toby", "x", "User", Option.none, false, []⟩], []⟩
      ⟨2025, 10, 12⟩ "toby").1 (by decide) (by decide)).2

/-- If some abbreviation has no matching section at all, the
`remove_sections` loop raises `ValueError` (`none`), whatever removals
happen before reaching it. -/
theorem remove_sections_loop_failure (abbrs : List String) (sections : List Section)
    (h : ∃ a ∈ abbrs, ∀ s ∈ sections, s.abbreviation ≠ a) :
    remove_sections_loop abbrs sections = Option.none := by
  induction abbrs generalizing sections with
  | nil =>
    rcases h with ⟨a, ha, _⟩
    exact absurd ha (List.not_mem_nil a)
  | cons b rest ih =>
    rcases h with ⟨a, ha, hnone⟩
    rcases hf : sections.find? (fun s => s.abbreviation == b) with _ | s
    · unfold remove_sections_loop
      rw [hf]
    · have hred : remove_sections_loop (b :: rest) sections
          = remove_sections_loop rest (sections.erase s) := by
        simp only [remove_sections_loop]; rw [hf]
      have hs_mem := List.mem_of_find?_eq_some hf
      have hs_abbr : s.abbreviation = b := by simpa using List.find?_some hf
      have hab : a ≠ b := fun e => hnone s hs_mem (e ▸ hs_abbr)
      have ha' : a ∈ rest := by
        rcases List.mem_cons.mp ha with e | h'
        · exact absurd e hab
        · exact h'
      rw [hred]
      exact ih (sections.erase s)
        ⟨a, ha', fun t ht => hnone t (List.mem_of_mem_erase ht)⟩

/-- Erasing the unique section carrying abbreviation `a` and then filtering
out the remaining abbreviations equals filtering out all of them at once. -/
theorem filter_erase_of_unique_abbrev (l : List Section) (s1 : Section)
    (a : String) (rest : List String) (hmem : s1 ∈ l)
    (habbr : s1.abbreviation = a)
    (hnodup : (l.map Section.abbreviation).Nodup) :
    (l.erase s1).filter (fun s => !(rest.contains s.abbreviation))
      = l.filter (fun s => !((a :: rest).contains s.abbreviation)) := by
  induction l with
  | nil => cases hmem
  | cons t l' ih =>
    rw [List.map_cons, List.nodup_cons] at hnodup
    by_cases ht : t = s1
    · subst ht
      rw [List.erase_cons_head]
      rw [List.filter_cons_of_neg (by simp [habbr])]
      apply List.filter_congr
      intro s hs
      have hne : s.abbreviation ≠ a := by
        intro e
        have hmm : a ∈ List.map Section.abbreviation l' :=
          e ▸ List.mem_map_of_mem Section.abbreviation hs
        exact hnodup.1 (habbr ▸ hmm)
      simp [hne]
    · have hs1 : s1 ∈ l' := by
        rcases List.mem_cons.mp hmem with e | h'
        · exact absurd e.symm ht
        · exact h'
      have htne : t.abbreviation ≠ a := by
        intro e
        have hmm : a ∈ List.map Section.abbreviation l' :=
          habbr ▸ List.mem_map_of_mem Section.abbreviation hs1
        exact hnodup.1 (e ▸ hmm)
      have herase : (t :: l').erase s1 = t :: l'.erase s1 :=
        List.erase_cons_tail (by simpa using ht)
      rw [herase]
      have hcond : (List.contains (a :: rest) t.abbreviation)
          = List.contains rest t.abbreviation := by
        simp [htne]
      simp only [List.filter_cons]
      rw [hcond, ih hs1 hnodup.2]

/-- When the abbreviations are pairwise distinct and each matches a section
of a duplicate-abbreviation-free collection, the `remove_sections` loop
succeeds and returns the collection with exactly the matched sections
removed. -/
theorem remove_sections_loop_success (abbrs : List String) (sections : List Section)
    (h1 : abbrs.Nodup) (h2 : (sections.map Section.abbreviation).Nodup)
    (h3 : ∀ a ∈ abbrs, ∃ s ∈ sections, s.abbreviation = a) :
    remove_sections_loop abbrs sections
      = some (sections.filter (fun s => !(abbrs.contains s.abbreviation))) := by
  induction abbrs generalizing sections with
  | nil => simp [remove_sections_loop]
  | cons a rest ih =>
    rcases h3 a (List.mem_cons_self a rest) with ⟨s0, hs0, habbr0⟩
    rcases hf : sections.find? (fun s => s.abbreviation == a) with _ | s1
    · rw [List.find?_eq_none] at hf
      exact absurd (by simpa using habbr0) (by simpa using hf s0 hs0)
    · have hs1mem := List.mem_of_find?_eq_some hf
      have hs1abbr : s1.abbreviation = a := by simpa using List.find?_some hf
      have hred : remove_sections_loop (a :: rest) sections
          = remove_sections_loop rest (sections.erase s1) := by
        simp only [remove_sections_loop]; rw [hf]
      have hn1 : rest.Nodup := (List.nodup_cons.mp h1).2
      have hanotin : a ∉ rest := (List.nodup_cons.mp h1).1
      have hn2 : ((sections.erase s1).map Section.abbreviation).Nodup :=
        List.Nodup.sublist (List.Sublist.map _ (List.erase_sublist s1 sections)) h2
      have hm : ∀ b ∈ rest, ∃ s ∈ sections.erase s1, s.abbreviation = b := by
        intro b hb
        rcases h3 b (List.mem_cons_of_mem a hb) with ⟨s', hs', habbr'⟩
        have hne : s' ≠ s1 := by
          intro e
          have hba : b = a := by rw [← habbr', e, hs1abbr]
          exact hanotin (hba ▸ hb)
        exact ⟨s', (List.mem_erase_of_ne hne).mpr hs', habbr'⟩
      rw [hred, ih (sections.erase s1) hn1 hn2 hm,
          filter_erase_of_unique_abbrev sections s1 a rest hs1mem hs1abbr h2]

/-- C6 (as stated) is false: with the single section `CSA` and the
abbreviation list `["CSA", "CSA"]`, every abbreviation in the list matches
some section of the user, yet `remove_sections` returns `False` (the second
`"CSA"` finds nothing after the first removal) and removes nothing. -/
theorem C6_remove_sections_counterexample :
    (∀ a ∈ (["CSA", "CSA"] : List String),
      ∃ s ∈ ([⟨1, "Computer Science A", "CSA"⟩] : List Section),
        s.abbreviation = a) ∧
    remove_sections [⟨1, "Computer Science A", "CSA"⟩] ["CSA", "CSA"]
      = (false, [⟨1, "Computer Science A", "CSA"⟩]) := by
  refine ⟨by decide, by decide⟩

/-- C6 amended: when the abbreviations are pairwise distinct, the user's
sections carry pairwise-distinct abbreviations, and each abbreviation
matches some section, `remove_sections` removes exactly the matched
sections and returns `True`; when some abbreviation matches no section of
the user, it returns `False` and the sections are exactly what they were
before the call (the rollback discards any partial removals). -/
theorem C6_remove_sections_atomic (sections : List Section) (abbrs : List String) :
    (abbrs.Nodup → (sections.map Section.abbreviation).Nodup →
      (∀ a ∈ abbrs, ∃ s ∈ sections, s.abbreviation = a) →
      remove_sections sections abbrs
        = (true, sections.filter (fun s => !(abbrs.contains s.abbreviation)))) ∧
    ((∃ a ∈ abbrs, ∀ s ∈ sections, s.abbreviation ≠ a) →
      remove_sections sections abbrs = (false, sections)) := by
  constructor
  · intro h1 h2 h3
    unfold remove_sections
    rw [remove_sections_loop_success abbrs sections h1 h2 h3]
  · intro h
    unfold remove_sections
    rw [remove_sections_loop_failure abbrs sections h]

/-- Closed instance of `C6_remove_sections_atomic`: removing `CSA` from a
user enrolled in `CSA` and `CSP` succeeds and leaves exactly `CSP`. -/
theorem C6_witness :
    remove_sections
        [⟨1, "Computer Science A", "CSA"⟩, ⟨2, "Computer Science Principles", "CSP"⟩]
        ["CSA"]
      = (true, [⟨2, "Computer Science Principles", "CSP"⟩]) := by
  have h := (C6_remove_sections_atomic
    [⟨1, "Computer Science A", "CSA"⟩, ⟨2, "Computer Science Principles", "CSP"⟩]
    ["CSA"]).1 (by decide) (by decide) (by decide)
  rw [h]
  decide

/-- Rebuilding a string from its characters is the identity. -/
theorem mk_data (s : String) : String.mk s.data = s := rfl

/-- Splitting a `'$'`-free stream yields the single accumulated segment. -/
theorem splitD_no_dollar (l acc : List Char) (h : '$' ∉ l) :
    splitD l acc = [acc.reverse ++ l] := by
  induction l generalizing acc with
  | nil => simp [splitD]
  | cons c rest ih =>
    have hc : c ≠ '$' := fun e => h (e ▸ List.mem_cons_self c rest)
    simp only [splitD, if_neg hc]
    rw [ih (c :: acc) (fun hm => h (List.mem_cons_of_mem c hm))]
    simp

/-- Splitting past a `'$'`-free first segment emits that segment and
restarts on the remainder. -/
theorem splitD_append_dollar (l1 l2 acc : List Char) (h : '$' ∉ l1) :
    splitD (l1 ++ '$' :: l2) acc = (acc.reverse ++ l1) :: splitD l2 [] := by
  induction l1 generalizing acc with
  | nil => simp [splitD]
  | cons c rest ih =>
    have hc : c ≠ '$' := fun e => h (e ▸ List.mem_cons_self c rest)
    simp only [List.cons_append, splitD, if_neg hc, List.append_eq]
    rw [ih (c :: acc) (fun hm => h (List.mem_cons_of_mem c hm))]
    simp

/-- Hex digit characters are never `'$'`. -/
theorem hexDigit_lt16_ne_dollar : ∀ k, k < 16 → hexDigit k ≠ '$' := by decide

/-- The modelled digest contains no `'$'`. -/
theorem dollar_not_mem_natToHexChars (w v : Nat) : '$' ∉ natToHexChars w v := by
  induction w generalizing v with
  | zero => simp [natToHexChars]
  | succ w ih =>
    simp only [natToHexChars, List.mem_cons, not_or]
    exact ⟨fun e => hexDigit_lt16_ne_dollar (v % 16)
             (Nat.mod_lt v (by norm_num)) e.symm,
           ih (v / 16)⟩

/-- The characters of a generated hash: the method string, `'$'`, the salt,
`'$'`, the digest. -/
theorem generate_password_hash_data (salt password : String) :
    (generate_password_hash salt password).data
      = "pbkdf2:sha256:600000".data
          ++ '$' :: (salt.data ++ '$' :: pbkdf2Digest salt password) := by
  have hsplit : ("pbkdf2:sha256:600000$" : String).data
      = "pbkdf2:sha256:600000".data ++ ['$'] := by decide
  have hdol : ("$" : String).data = ['$'] := by decide
  simp only [generate_password_hash, String.data_append, hsplit, hdol]
  simp [List.append_assoc]

/-- Verifying a freshly generated hash against the same password succeeds,
for any `'$'`-free salt. -/
theorem check_generate (salt password : String) (h : '$' ∉ salt.data) :
    check_password_hash (generate_password_hash salt password) password = true := by
  have hdigest : '$' ∉ pbkdf2Digest salt password :=
    dollar_not_mem_natToHexChars 64 _
  have hm : '$' ∉ ("pbkdf2:sha256:600000" : String).data := by decide
  unfold check_password_hash
  rw [generate_password_hash_data,
      splitD_append_dollar _ _ _ hm,
      splitD_append_dollar _ _ _ h,
      splitD_no_dollar _ _ hdigest]
  simp [mk_data]

/-- C9: a `User` constructed without an explicit password stores the hash
of the default `"123qwerty"`, so `is_password("123qwerty")` holds right
after `User(name, uid)`; after `set_password(p)`, `is_password(p)` holds
and the stored `_password` is the salted hash of `p` (method prefix, salt,
digest), not `p` itself (for any password that does not itself start with
the hash method prefix). -/
theorem C9_default_password_and_salted_hash (name uid salt p : String) (u : User)
    (hs : '$' ∉ salt.data)
    (hp : ¬ ("pbkdf2:sha256:600000" : String).data <+: p.data) :
    (User.initDefault name uid salt).is_password "123qwerty" = true ∧
    (u.set_password salt p).is_password p = true ∧
    (u.set_password salt p)._password = generate_password_hash salt p ∧
    (u.set_password salt p)._password ≠ p := by
  refine ⟨?_, ?_, rfl, ?_⟩
  · simpa [User.initDefault, User.init, User.is_password]
      using check_generate salt "123qwerty" hs
  · simpa [User.set_password, User.is_password] using check_generate salt p hs
  · intro e
    apply hp
    have hd : (generate_password_hash salt p).data = p.data :=
      congrArg String.data e
    refine ⟨'$' :: (salt.data ++ '$' :: pbkdf2Digest salt p), ?_⟩
    rw [← hd, generate_password_hash_data]

/-- Closed instance of `C9_default_password_and_salted_hash`: with a
concrete alphanumeric salt, the default-constructed user's password check
accepts `"123qwerty"`. -/
theorem C9_witness :
    ('$' ∉ ("abcdefghij" : String).data) ∧
    (User.initDefault "Thomas Edison" "toby" "abcdefghij").is_password "123qwerty"
      = true :=
  ⟨by decide,
   (C9_default_password_and_salted_hash "Thomas Edison" "toby" "abcdefghij"
      "123toby" (User.initDefault "Thomas Edison" "toby" "abcdefghij")
      (by decide) (by decide)).1⟩

end Kasm
